import Mathlib

/-!
Shallow embedding of `src/error.rs` from the topiary repository: the error
taxonomy (`TopiaryError` and its sub-taxonomies `ReadingError`,
`WritingError`, `ParserCompilationError`), the diagnostic renderer
(the `fmt::Display` implementation), the cause accessor (the
`Error::source` implementation) and the five `From` conversions from
foreign failure types.

Foreign failure types (`io::Error`, `str::Utf8Error`, `fmt::Error`,
`io::IntoInnerError<..>`, `string::FromUtf8Error`, `tree_sitter::QueryError`,
`ffi::OsString`, `git2::Error`, `libloading::Error`) are opaque to this
module except for their display text, so each is embedded as a wrapper
around a `String` holding that display text.
-/

/-- Embeds `std::io::Error`: opaque here, carries its display text. -/
structure IoError where
  text : String
deriving DecidableEq, Repr

/-- Embeds `std::str::Utf8Error`. -/
structure Utf8Error where
  text : String
deriving DecidableEq, Repr

/-- Embeds `std::fmt::Error`. -/
structure FmtError where
  text : String
deriving DecidableEq, Repr

/-- Embeds `std::io::IntoInnerError<io::BufWriter<Vec<u8>>>`. -/
structure IntoInnerError where
  text : String
deriving DecidableEq, Repr

/-- Embeds `std::string::FromUtf8Error`. -/
structure FromUtf8Error where
  text : String
deriving DecidableEq, Repr

/-- Embeds `tree_sitter::QueryError`. -/
structure QueryError where
  text : String
deriving DecidableEq, Repr

/-- Embeds `git2::Error`: its display text is interpolated by the renderer. -/
structure GitError where
  text : String
deriving DecidableEq, Repr

/-- Embeds `libloading::Error`: its display text is interpolated by the renderer. -/
structure LibloadingError where
  text : String
deriving DecidableEq, Repr

/-- Embeds `std::ffi::OsString`. The embedding is restricted to well-formed
Unicode content, on which `to_string_lossy` is the identity. -/
structure OsString where
  text : String
deriving DecidableEq, Repr

/-- `OsStr::to_string_lossy` on well-formed Unicode content. -/
def OsString.to_string_lossy (s : OsString) : String := s.text

/-- Embeds `enum ReadingError`, a subtype of `TopiaryError::Reading`. -/
inductive ReadingError where
  | Io (message : String) (cause : IoError)
  | Utf8 (cause : Utf8Error)
deriving DecidableEq, Repr

/-- Embeds `enum WritingError`, a subtype of `TopiaryError::Writing`. -/
inductive WritingError where
  | Fmt (cause : FmtError)
  | IntoInner (cause : IntoInnerError)
  | Io (cause : IoError)
  | FromUtf8 (cause : FromUtf8Error)
deriving DecidableEq, Repr

/-- Embeds `enum ParserCompilationError`, a subtype of
`TopiaryError::ParserCompilation`. -/
inductive ParserCompilationError where
  | Io (cause : IoError)
  | Cc (out : String) (err : String)
deriving DecidableEq, Repr

/-- Embeds `enum TopiaryError`: the various errors the formatter may return. -/
inductive TopiaryError where
  | Formatting (inner : TopiaryError)
  | Idempotence
  | Internal (message : String) (cause : Option IoError)
  | Parsing (start_line : Nat) (start_column : Nat) (end_line : Nat) (end_column : Nat)
  | Query (message : String) (cause : Option QueryError)
  | LanguageDetection (filename : String) (extension : Option OsString)
  | Reading (cause : ReadingError)
  | Writing (cause : WritingError)
  | Git (cause : GitError)
  | ParserLoading (cause : LibloadingError)
  | ParserCompilation (cause : ParserCompilationError)
deriving DecidableEq, Repr

/-- Embeds `&dyn Error`, the type of one step of the cause chain as returned
by `Error::source`: either another `TopiaryError` or one of the wrapped
foreign failure values. -/
inductive ErrorDyn where
  | topiary (e : TopiaryError)
  | io (e : IoError)
  | utf8 (e : Utf8Error)
  | fmtE (e : FmtError)
  | intoInner (e : IntoInnerError)
  | fromUtf8 (e : FromUtf8Error)
  | query (e : QueryError)
  | git (e : GitError)
  | libloading (e : LibloadingError)
deriving DecidableEq, Repr

/-- The `please_log_message` binding of `impl fmt::Display for TopiaryError`. -/
def please_log_message : String :=
  "It would be helpful if you logged this error at https://github.com/tweag/topiary/issues/new?assignees=&labels=type%3A+bug&template=bug_report.md"

/-- Embeds `impl fmt::Display for TopiaryError`: the string the `write!`
calls produce, arm by arm in source order. -/
def TopiaryError.display : TopiaryError → String
  | .Idempotence =>
      "The formatter did not produce the same result when invoked twice (idempotence check).\n"
        ++ please_log_message
  | .Parsing start_line start_column end_line end_column =>
      "Parsing error between line " ++ toString start_line ++ ", column "
        ++ toString start_column ++ " and line " ++ toString end_line
        ++ ", column " ++ toString end_column
  | .Reading (ReadingError.Io message _) => message
  | .Reading (ReadingError.Utf8 _) => "Input is not UTF8"
  | .Writing _ => "Writing error"
  | .Internal message _ => message
  | .Query message _ => message
  | .LanguageDetection filename extension =>
      let file : String :=
        if filename = "-" then "from standard input"
        else "of file '" ++ filename ++ "'"
      match extension with
      | some extension =>
          "Cannot detect language " ++ file ++ " due to unknown extension '."
            ++ extension.to_string_lossy ++ "'. Try specifying language explicitly."
      | none =>
          "Cannot detect language " ++ file ++ ". Try specifying language explicitly."
  | .Formatting _ =>
      "The formatter errored when trying to format the code twice (idempotence check).\nThis probably means that the formatter produced invalid code.\n"
        ++ please_log_message
  | .Git err =>
      "The formatter errored when trying to fetch a grammar from git. See the following message: "
        ++ err.text
  | .ParserLoading err =>
      "The formatter errored when trying load the parser dynamic library: " ++ err.text
  | .ParserCompilation (ParserCompilationError.Io err) =>
      "The formatter ran into an IO error when compiling a Parser: " ++ err.text
  | .ParserCompilation (ParserCompilationError.Cc out err) =>
      "The formatter ran into an error when compiling a Parser. Output from the CC subprocess: "
        ++ out ++ " " ++ err

/-- Embeds `impl Error for TopiaryError`: the `source` method, arm by arm in
source order. -/
def TopiaryError.source : TopiaryError → Option ErrorDyn
  | .Idempotence => none
  | .Internal _ cause => cause.map ErrorDyn.io
  | .Parsing _ _ _ _ => none
  | .Query _ cause => cause.map ErrorDyn.query
  | .LanguageDetection _ _ => none
  | .Reading (ReadingError.Io _ cause) => some (ErrorDyn.io cause)
  | .Reading (ReadingError.Utf8 cause) => some (ErrorDyn.utf8 cause)
  | .Writing (WritingError.Fmt cause) => some (ErrorDyn.fmtE cause)
  | .Writing (WritingError.FromUtf8 cause) => some (ErrorDyn.fromUtf8 cause)
  | .Writing (WritingError.IntoInner cause) => some (ErrorDyn.intoInner cause)
  | .Writing (WritingError.Io cause) => some (ErrorDyn.io cause)
  | .Formatting err => some (ErrorDyn.topiary err)
  | .Git err => some (ErrorDyn.git err)
  | .ParserLoading err => some (ErrorDyn.libloading err)
  | .ParserCompilation (ParserCompilationError.Io err) => some (ErrorDyn.io err)
  | .ParserCompilation (ParserCompilationError.Cc _ _) => none

/-- Embeds `impl From<str::Utf8Error> for TopiaryError`. -/
def TopiaryError.from_utf8_error (e : Utf8Error) : TopiaryError :=
  TopiaryError.Reading (ReadingError.Utf8 e)

/-- Embeds `impl From<io::Error> for TopiaryError`. -/
def TopiaryError.from_io_error (e : IoError) : TopiaryError :=
  TopiaryError.Writing (WritingError.Io e)

/-- Embeds `impl From<string::FromUtf8Error> for TopiaryError`. -/
def TopiaryError.from_from_utf8_error (e : FromUtf8Error) : TopiaryError :=
  TopiaryError.Writing (WritingError.FromUtf8 e)

/-- Embeds `impl From<io::IntoInnerError<io::BufWriter<Vec<u8>>>> for TopiaryError`. -/
def TopiaryError.from_into_inner_error (e : IntoInnerError) : TopiaryError :=
  TopiaryError.Writing (WritingError.IntoInner e)

/-- Embeds `impl From<fmt::Error> for TopiaryError`. -/
def TopiaryError.from_fmt_error (e : FmtError) : TopiaryError :=
  TopiaryError.Writing (WritingError.Fmt e)

/-- Modelled from the spec: the cause exposure rule of the diagnostic
renderer, variant by variant as the spec words it -- `Idempotence`,
`Parsing`, `LanguageDetection` and `ParserCompilation::Cc` expose no cause;
`Internal` and `Query` expose their optional wrapped failure only if
present; `Reading` (either sub-variant), `Writing` (any sub-variant),
`Formatting`, `Git`, `ParserLoading` and `ParserCompilation::Io` always
expose their wrapped value, unchanged. -/
def specCause : TopiaryError → Option ErrorDyn
  | .Formatting inner => some (ErrorDyn.topiary inner)
  | .Idempotence => none
  | .Internal _ cause => cause.map ErrorDyn.io
  | .Parsing _ _ _ _ => none
  | .Query _ cause => cause.map ErrorDyn.query
  | .LanguageDetection _ _ => none
  | .Reading (ReadingError.Io _ cause) => some (ErrorDyn.io cause)
  | .Reading (ReadingError.Utf8 cause) => some (ErrorDyn.utf8 cause)
  | .Writing (WritingError.Fmt cause) => some (ErrorDyn.fmtE cause)
  | .Writing (WritingError.IntoInner cause) => some (ErrorDyn.intoInner cause)
  | .Writing (WritingError.Io cause) => some (ErrorDyn.io cause)
  | .Writing (WritingError.FromUtf8 cause) => some (ErrorDyn.fromUtf8 cause)
  | .Git cause => some (ErrorDyn.git cause)
  | .ParserLoading cause => some (ErrorDyn.libloading cause)
  | .ParserCompilation (ParserCompilationError.Io cause) => some (ErrorDyn.io cause)
  | .ParserCompilation (ParserCompilationError.Cc _ _) => none

/-- Modelled from the spec: well-formedness of a `Parsing` span -- the end
position is not logically before the start position, line-major then
column. Non-`Parsing` variants carry no span, so the predicate holds of
them vacuously. -/
def spanWellFormed : TopiaryError → Prop
  | .Parsing start_line start_column end_line end_column =>
      end_line > start_line ∨ (end_line = start_line ∧ end_column ≥ start_column)
  | _ => True

instance : DecidablePred spanWellFormed := by
  intro e
  cases e <;> simp only [spanWellFormed] <;> infer_instance

/-- Claim C1: the cause accessor (`source`) agrees with the spec's cause
exposure rule on every variant -- it returns the wrapped value, unchanged,
exactly for `Reading` (either sub-variant), `Writing` (any sub-variant),
`Formatting`, `Git`, `ParserLoading`, `ParserCompilation::Io`, and
`Internal`/`Query` with a present optional failure, and no cause otherwise;
in particular walking one level from `Formatting(e)` yields `e` itself. -/
theorem source_matches_spec_cause :
    (∀ e : TopiaryError, e.source = specCause e) ∧
    (∀ e : TopiaryError,
      (TopiaryError.Formatting e).source = some (ErrorDyn.topiary e)) := by
  refine ⟨fun e => ?_, fun e => rfl⟩
  cases e with
  | Reading r => cases r <;> rfl
  | Writing w => cases w <;> rfl
  | ParserCompilation p => cases p <;> rfl
  | _ => rfl

/-- Claim C2: each of the five `From` conversions is total, yields exactly
the prescribed variant with the foreign value retained unmodified as
payload, and the retained payload is recoverable unchanged through the
cause accessor. -/
theorem conversions_exact_and_lossless :
    (∀ e : Utf8Error,
      TopiaryError.from_utf8_error e = TopiaryError.Reading (ReadingError.Utf8 e) ∧
      (TopiaryError.from_utf8_error e).source = some (ErrorDyn.utf8 e)) ∧
    (∀ e : IoError,
      TopiaryError.from_io_error e = TopiaryError.Writing (WritingError.Io e) ∧
      (TopiaryError.from_io_error e).source = some (ErrorDyn.io e)) ∧
    (∀ e : FromUtf8Error,
      TopiaryError.from_from_utf8_error e =
        TopiaryError.Writing (WritingError.FromUtf8 e) ∧
      (TopiaryError.from_from_utf8_error e).source = some (ErrorDyn.fromUtf8 e)) ∧
    (∀ e : IntoInnerError,
      TopiaryError.from_into_inner_error e =
        TopiaryError.Writing (WritingError.IntoInner e) ∧
      (TopiaryError.from_into_inner_error e).source = some (ErrorDyn.intoInner e)) ∧
    (∀ e : FmtError,
      TopiaryError.from_fmt_error e = TopiaryError.Writing (WritingError.Fmt e) ∧
      (TopiaryError.from_fmt_error e).source = some (ErrorDyn.fmtE e)) :=
  ⟨fun _ => ⟨rfl, rfl⟩, fun _ => ⟨rfl, rfl⟩, fun _ => ⟨rfl, rfl⟩,
   fun _ => ⟨rfl, rfl⟩, fun _ => ⟨rfl, rfl⟩⟩

/-- Claim C3: every `Parsing` value renders to exactly the templated span
message, and the concrete value `Parsing{1,1,1,5}` renders exactly
"Parsing error between line 1, column 1 and line 1, column 5". -/
theorem parsing_display_exact :
    (∀ a b c d : Nat,
      (TopiaryError.Parsing a b c d).display =
        "Parsing error between line " ++ toString a ++ ", column " ++ toString b
          ++ " and line " ++ toString c ++ ", column " ++ toString d) ∧
    (TopiaryError.Parsing 1 1 1 5).display =
      "Parsing error between line 1, column 1 and line 1, column 5" :=
  ⟨fun _ _ _ _ => rfl, rfl⟩

/-- Claim C4: every `LanguageDetection` value renders with the source phrase
"from standard input" when the filename is "-" and "of file '{filename}'"
otherwise, with the extension clause present exactly when an extension is
present. -/
theorem language_detection_display_exact :
    (∀ (filename : String) (ext : OsString),
      (TopiaryError.LanguageDetection filename (some ext)).display =
        "Cannot detect language "
          ++ (if filename = "-" then "from standard input"
              else "of file '" ++ filename ++ "'")
          ++ " due to unknown extension '." ++ ext.to_string_lossy
          ++ "'. Try specifying language explicitly.") ∧
    (∀ filename : String,
      (TopiaryError.LanguageDetection filename none).display =
        "Cannot detect language "
          ++ (if filename = "-" then "from standard input"
              else "of file '" ++ filename ++ "'")
          ++ ". Try specifying language explicitly.") ∧
    (TopiaryError.LanguageDetection "-" none).display =
      "Cannot detect language from standard input. Try specifying language explicitly." ∧
    (TopiaryError.LanguageDetection "foo.xyz" (some ⟨"xyz"⟩)).display =
      "Cannot detect language of file 'foo.xyz' due to unknown extension '.xyz'. Try specifying language explicitly." :=
  ⟨fun _ _ => rfl, fun _ => rfl, rfl, rfl⟩

/-- Claim C5, counterexample: the error type does not enforce span
well-formedness -- the value `Parsing{1,1,0,0}` is constructible and its
end position (line 0, column 0) is logically before its start position
(line 1, column 1). -/
theorem parsing_span_counterexample :
    ¬ spanWellFormed (TopiaryError.Parsing 1 1 0 0) := by
  simp [spanWellFormed]

/-- Claim C5 as amended: span well-formedness of a `Parsing` value is a
property, not an enforced invariant -- values violating it are
constructible, and it holds of `Parsing{a,b,c,d}` exactly when `a < c`
or `a = c` with `b ≤ d`. -/
theorem parsing_span_not_enforced :
    (∃ a b c d : Nat, ¬ spanWellFormed (TopiaryError.Parsing a b c d)) ∧
    (∀ a b c d : Nat,
      spanWellFormed (TopiaryError.Parsing a b c d) ↔
        (a < c ∨ (a = c ∧ b ≤ d))) := by
  constructor
  · exact ⟨1, 1, 0, 0, by simp [spanWellFormed]⟩
  · intro a b c d
    simp only [spanWellFormed]
    omega

/-- Claim C6: the rendered message of a `Formatting` value does not depend
on its wrapped cause, while the cause accessor on `Formatting(e)` still
returns `e` for chain inspection. -/
theorem formatting_display_cause_independent :
    (∀ e1 e2 : TopiaryError,
      (TopiaryError.Formatting e1).display = (TopiaryError.Formatting e2).display) ∧
    (∀ e : TopiaryError,
      (TopiaryError.Formatting e).source = some (ErrorDyn.topiary e)) :=
  ⟨fun _ _ => rfl, fun _ => rfl⟩

/-- Claim C7: rendering is deterministic and total -- equal payloads render
to the identical message string, and every constructible error value has a
rendering. -/
theorem display_deterministic_total (e1 e2 : TopiaryError) (h : e1 = e2) :
    e1.display = e2.display ∧ ∃ s : String, e1.display = s :=
  ⟨h ▸ rfl, ⟨e1.display, rfl⟩⟩

/-- Witness for claim C7 at the concrete input `Idempotence`. -/
theorem display_deterministic_total_witness :
    TopiaryError.Idempotence.display = TopiaryError.Idempotence.display ∧
      ∃ s : String, TopiaryError.Idempotence.display = s :=
  display_deterministic_total TopiaryError.Idempotence TopiaryError.Idempotence rfl

/-- Claim C8: every `Writing` value, whichever of the four sub-variants is
active and whatever the wrapped payload, renders to the fixed top-line
message "Writing error". -/
theorem writing_display_fixed :
    ∀ w : WritingError, (TopiaryError.Writing w).display = "Writing error" :=
  fun _ => rfl

/-- Claim C9: `ParserCompilation(Cc(out, err))` renders to exactly the CC
subprocess message with `out` and `err` interpolated, and hence contains
both verbatim with `out` occurring before `err`. -/
theorem cc_display_exact :
    ∀ out err : String,
      ((TopiaryError.ParserCompilation (ParserCompilationError.Cc out err)).display =
        "The formatter ran into an error when compiling a Parser. Output from the CC subprocess: "
          ++ out ++ " " ++ err) ∧
      (∃ s1 s2 s3 : String,
        (TopiaryError.ParserCompilation (ParserCompilationError.Cc out err)).display =
          s1 ++ out ++ s2 ++ err ++ s3) := by
  intro out err
  refine ⟨rfl,
    "The formatter ran into an error when compiling a Parser. Output from the CC subprocess: ",
    " ", "", ?_⟩
  simp [TopiaryError.display]

/-- Claim C10: the exact fixed texts of the two bug-indicating messages,
each ending in the identical shared bug-report line. -/
theorem bug_messages_exact :
    TopiaryError.Idempotence.display =
      "The formatter did not produce the same result when invoked twice (idempotence check).\nIt would be helpful if you logged this error at https://github.com/tweag/topiary/issues/new?assignees=&labels=type%3A+bug&template=bug_report.md" ∧
    (∀ e : TopiaryError,
      (TopiaryError.Formatting e).display =
        "The formatter errored when trying to format the code twice (idempotence check).\nThis probably means that the formatter produced invalid code.\nIt would be helpful if you logged this error at https://github.com/tweag/topiary/issues/new?assignees=&labels=type%3A+bug&template=bug_report.md") ∧
    (∃ p q : String,
      TopiaryError.Idempotence.display = p ++ please_log_message ∧
      ∀ e : TopiaryError,
        (TopiaryError.Formatting e).display = q ++ please_log_message) := by
  refine ⟨rfl, fun e => rfl,
    "The formatter did not produce the same result when invoked twice (idempotence check).\n",
    "The formatter errored when trying to format the code twice (idempotence check).\nThis probably means that the formatter produced invalid code.\n",
    rfl, fun e => rfl⟩
